import Mathlib

/-!
Verification of the `Scrollbox` component of the booyah-pixi package
(`src/scroll.ts`), together with the point-arithmetic helpers from
`src/booyahPixi.ts` that it uses.

Numbers are modelled as rationals (`ℚ`): all arithmetic the component
performs on the relevant inputs is `+ - * /`, `min`, `max` and comparisons,
which are exact operations.  The one divergence from JavaScript semantics is
division by zero: in `ℚ` it yields `0`, in JavaScript `Infinity`/`NaN`; every
theorem that touches a division keeps its divisor nonzero (or the divergence
is itself the point, and is stated over nonzero concrete inputs).

Scene-graph services (coordinate transforms `toLocal`, hit tests, visibility
of ancestors) are external collaborators: handlers receive their results as
parameters (a local point, a hit-test boolean), exactly the values the
TypeScript handler computes from the event before using them.
-/

namespace BooyahScroll

/-- A 2D point, embedding `PIXI.Point` / `PIXI.IPointData` (fields `x`, `y`). -/
structure Point where
  x : ℚ
  y : ℚ
deriving DecidableEq, Repr

/-- Embeds `booyahPixi.add(a, b)` (src/booyahPixi.ts): componentwise sum,
returned as a fresh point. -/
def addPoints (a b : Point) : Point := ⟨a.x + b.x, a.y + b.y⟩

/-- Embeds `booyahPixi.subtract(a, b)` (src/booyahPixi.ts): componentwise
difference, returned as a fresh point. -/
def subPoints (a b : Point) : Point := ⟨a.x - b.x, a.y - b.y⟩

/-- Squared Euclidean distance between two points. -/
def dist2 (a b : Point) : ℚ :=
  (a.x - b.x) * (a.x - b.x) + (a.y - b.y) * (a.y - b.y)

/-- Embeds the comparison `booyahPixi.distance(a, b) <= t`, where
`distance(a, b) = Math.sqrt(dx*dx + dy*dy)` (src/booyahPixi.ts).  Over the
reals, `Real.sqrt d ≤ t` with `d ≥ 0` holds iff `0 ≤ t ∧ d ≤ t * t`, so the
square root is eliminated and the test stays decidable over `ℚ`. -/
def distWithin (a b : Point) (t : ℚ) : Prop :=
  0 ≤ t ∧ dist2 a b ≤ t * t

instance (a b : Point) (t : ℚ) : Decidable (distWithin a b t) := by
  unfold distWithin
  infer_instance

/-- Modelled from the spec: `geom.clamp` comes from the `booyah` dependency
(`booyah/dist/geom`), whose source is not part of this repository.  The spec
describes its use as clamping a coordinate into `[lo, hi]`, with the
degenerate case `lo > hi` (content smaller than the box) resolving to `hi = 0`
("If contentSize <= boxSize, the only valid position is 0"), i.e. the usual
`min(max(x, lo), hi)` form. -/
def clamp (x lo hi : ℚ) : ℚ := min (max x lo) hi

/-- Embeds `ScrollboxOptions` (src/scroll.ts), with the same defaults.
The `content`, `scrollbarBackground` and `scrollbarForeground` fields are
scene-graph nodes and are not part of the numeric model; `overflow` is
`number | string` in the source but only string values occur. -/
structure ScrollboxOptions where
  boxWidth : ℚ := 100
  boxHeight : ℚ := 100
  overflow : String := "auto"
  direction : String := "horizontal"
  dragScroll : Bool := true
  dragThreshold : ℚ := 5
  stopPropagation : Bool := true
  wheelScroll : Bool := true
deriving DecidableEq, Repr

/-- Embeds the `pointerDown` record (src/scroll.ts).  In TypeScript it is
`any`-typed: `_scrollbarDown` stores `{ type: "scrollbar", direction:
"horizontal", last }` and `_dragDown` stores `{ type: "drag", last }`.  The
`direction` field is modelled as `""` when the source record omits it. -/
structure PointerRecord where
  type : String
  direction : String
  last : Point
deriving DecidableEq, Repr

/-- An event emitted by the Scrollbox (`this.emit(...)` calls):
`moved` carries its `{ reason }` payload; `refreshed` carries nothing. -/
inductive ScrollEvent where
  | moved (reason : String)
  | refreshed
deriving DecidableEq, Repr

/-- The mutable state of a `Scrollbox` instance.  `contentWidth` and
`contentHeight` are the bounds of the `content` container (`this.content
.width/.height`, derived from its children, changed only externally);
`contentPos` is `this.content.position` (the scroll offset, also exposed as
`currentScroll`); `ratioValue` is the private field `_ratio`;
`scrollbarVisible` is the `visible` flag of the scrollbar nodes, which PIXI
initialises to `true` and which src/scroll.ts never writes; `emitted` is the
append-only log of emitted events. -/
structure ScrollboxState where
  options : ScrollboxOptions := {}
  contentWidth : ℚ := 0
  contentHeight : ℚ := 0
  contentPos : Point := ⟨0, 0⟩
  pointerDown : Option PointerRecord := none
  contentInteractiveChildren : Bool := true
  ratioValue : ℚ := 0
  scrollbarBackgroundWidth : ℚ := 0
  scrollbarHandleWidth : ℚ := 0
  scrollbarHandleX : ℚ := 0
  scrollbarVisible : Bool := true
  emitted : List ScrollEvent := []
deriving DecidableEq, Repr

/-- Embeds `Scrollbox._updateScrollbars` (src/scroll.ts lines 165-175):

    const boxSize = this.options.boxWidth;
    const contentSize = this.content.width;
    const contentPosition = this.content.x;
    this._ratio = boxSize / contentSize;
    this._scrollbarBackground.width = boxSize;
    this._scrollbarHandle.width = boxSize * this._ratio;
    this._scrollbarHandle.x = -contentPosition * this._ratio;

The ratio is not clamped and nothing else is written: in particular the
content position, the `overflow` option and the scrollbar visibility are not
consulted.  (When `contentWidth = 0`, JavaScript produces `Infinity` for the
ratio where `ℚ` yields `0`; theorems about this function use nonzero content
sizes.) -/
def updateScrollbars (s : ScrollboxState) : ScrollboxState :=
  let boxSize := s.options.boxWidth
  let contentSize := s.contentWidth
  let contentPosition := s.contentPos.x
  let r := boxSize / contentSize
  { s with ratioValue := r
         , scrollbarBackgroundWidth := boxSize
         , scrollbarHandleWidth := boxSize * r
         , scrollbarHandleX := -contentPosition * r }

/-- Embeds `Scrollbox.refresh` (src/scroll.ts lines 158-163): calls
`_updateScrollbars()` and emits `refreshed`. -/
def refresh (s : ScrollboxState) : ScrollboxState :=
  let s1 := updateScrollbars s
  { s1 with emitted := s1.emitted ++ [ScrollEvent.refreshed] }

/-- Embeds `Scrollbox.scrollTo(position, reason)` (src/scroll.ts lines
441-457).  The source mutates its `position` argument in place (`position.x =
geom.clamp(...)`, likewise `.y`) before `this.content.position.copyFrom
(position)`; the second component of the result is the caller's point object
after the call.  The TypeScript `reason` parameter defaults to `"user"`. -/
def scrollTo (s : ScrollboxState) (position : Point) (reason : String) :
    ScrollboxState × Point :=
  let px := clamp position.x (s.options.boxWidth - s.contentWidth) 0
  let py := clamp position.y (s.options.boxHeight - s.contentHeight) 0
  let p : Point := ⟨px, py⟩
  let s1 := { s with contentPos := p }
  let s2 := updateScrollbars s1
  ({ s2 with emitted := s2.emitted ++ [ScrollEvent.moved reason] }, p)

/-- Embeds `Scrollbox.scrollBy(amount, reason)` (src/scroll.ts lines
434-439): `scrollTo(add(content.position, amount), reason)`; `add` builds a
fresh point, so the caller's `amount` is not mutated. -/
def scrollBy (s : ScrollboxState) (amount : Point) (reason : String) :
    ScrollboxState × Point :=
  scrollTo s (addPoints s.contentPos amount) reason

/-- Embeds `Scrollbox._scrollbarDown` (src/scroll.ts lines 303-317).
`localPt` is `this._scrollbarAnchor.toLocal(e.global)`; the guard `if
(this.pointerDown) return;` makes the handler a no-op while a gesture is
active.  (`stopPropagation` acts on the event object, not on this state.) -/
def scrollbarDown (s : ScrollboxState) (localPt : Point) : ScrollboxState :=
  match s.pointerDown with
  | some _ => s
  | none =>
    { s with pointerDown := some ⟨"scrollbar", "horizontal", localPt⟩ }

/-- Embeds `Scrollbox._dragDown` (src/scroll.ts lines 352-363).  `localPt`
is `this.container.toLocal(e.global)`; the guard `if (this.pointerDown)
return;` runs before `interactiveChildren` is touched, so an active gesture
leaves the state entirely unchanged. -/
def dragDown (s : ScrollboxState) (localPt : Point) : ScrollboxState :=
  match s.pointerDown with
  | some _ => s
  | none =>
    { s with contentInteractiveChildren := false
           , pointerDown := some ⟨"drag", "", localPt⟩ }

/-- Embeds `Scrollbox._scrollbarMove` (src/scroll.ts lines 324-336); only
reached from `_onMove` with a `"scrollbar"` record present (the `none`
branch is unreachable there and returns the state unchanged). -/
def scrollbarMove (s : ScrollboxState) (localPt : Point) : ScrollboxState :=
  match s.pointerDown with
  | none => s
  | some pd =>
    if pd.direction = "horizontal" then
      let deltaPosition := localPt.x - pd.last.x
      let fraction := deltaPosition / s.ratioValue
      let s1 := (scrollBy s ⟨-fraction, 0⟩ "user").1
      { s1 with pointerDown := some { pd with last := localPt } }
    else s

/-- Embeds `Scrollbox._dragMove` (src/scroll.ts lines 371-390); only reached
from `_onMove` with a `"drag"` record present.  If the distance from the
recorded point is within `dragThreshold` the handler returns without doing
anything; otherwise it calls `scrollBy(subtract(local, last))` — note the
axis-restriction lines are commented out in the source, so the full
two-dimensional delta is applied — and then records `local` as the new last
point. -/
def dragMove (s : ScrollboxState) (localPt : Point) : ScrollboxState :=
  match s.pointerDown with
  | none => s
  | some pd =>
    if distWithin localPt pd.last s.options.dragThreshold then s
    else
      let scrollAmount := subPoints localPt pd.last
      let s1 := (scrollBy s scrollAmount "user").1
      { s1 with pointerDown := some { pd with last := localPt } }

/-- Embeds `Scrollbox._scrollbarUp` (src/scroll.ts lines 342-345). -/
def scrollbarUp (s : ScrollboxState) : ScrollboxState :=
  { s with pointerDown := none, contentInteractiveChildren := true }

/-- Embeds `Scrollbox._dragUp` (src/scroll.ts lines 396-399). -/
def dragUp (s : ScrollboxState) : ScrollboxState :=
  { s with pointerDown := none, contentInteractiveChildren := true }

/-- Embeds the dispatcher `Scrollbox._onMove` (src/scroll.ts lines 282-288):
`null` record → silent return; `"scrollbar"`/`"drag"` → the respective move
handler; any other tag → `throw new Error("no such type")`, modelled as
`Except.error`. -/
def onMove (s : ScrollboxState) (localPt : Point) :
    Except String ScrollboxState :=
  match s.pointerDown with
  | none => Except.ok s
  | some pd =>
    if pd.type = "scrollbar" then Except.ok (scrollbarMove s localPt)
    else if pd.type = "drag" then Except.ok (dragMove s localPt)
    else Except.error "no such type"

/-- Embeds the dispatcher `Scrollbox._onUp` (src/scroll.ts lines 290-296),
with the same shape as `_onMove`. -/
def onUp (s : ScrollboxState) : Except String ScrollboxState :=
  match s.pointerDown with
  | none => Except.ok s
  | some pd =>
    if pd.type = "scrollbar" then Except.ok (scrollbarUp s)
    else if pd.type = "drag" then Except.ok (dragUp s)
    else Except.error "no such type"

/-- Embeds `Scrollbox._onWheel` (src/scroll.ts lines 405-432).
`worldVisible` is `this.container.worldVisible`; `hitTest` is the result of
the `rootBoundary.hitTest` call on the event's mapped coordinates.  After
both guards pass, the source computes `const scrollAmount = -e.deltaY;` into
a local that is never used — the `scrollBy` calls below it are commented out
— and then calls `e.preventDefault()`.  The boolean component of the result
records whether `preventDefault` was called. -/
def onWheel (s : ScrollboxState) (worldVisible hitTest : Bool) (deltaY : ℚ) :
    ScrollboxState × Bool :=
  if !worldVisible then (s, false)
  else if !hitTest then (s, false)
  else
    let _scrollAmount := -deltaY
    (s, true)

/-- One public scroll call: either `scrollBy` or `scrollTo`, with its
requested delta or position and its reason. -/
inductive ScrollOp where
  | sBy (amount : Point) (reason : String)
  | sTo (position : Point) (reason : String)
deriving Repr

/-- Apply one scroll call to a state (discarding the mutated argument). -/
def applyOp (s : ScrollboxState) (op : ScrollOp) : ScrollboxState :=
  match op with
  | .sBy a r => (scrollBy s a r).1
  | .sTo p r => (scrollTo s p r).1

/-- Apply a sequence of scroll calls in order. -/
def runOps (s : ScrollboxState) (ops : List ScrollOp) : ScrollboxState :=
  ops.foldl applyOp s

/-- The clamping invariant of the spec, per axis: the position lies in
`[boxSize - contentSize, 0]`, and when the content fits
(`contentSize ≤ boxSize`) the position is exactly `0`. -/
def posInScrollRange (pos boxSize contentSize : ℚ) : Prop :=
  (contentSize ≤ boxSize → pos = 0) ∧
  (boxSize ≤ contentSize → boxSize - contentSize ≤ pos ∧ pos ≤ 0)

/-! ### Example states used by concrete instantiations -/

/-- A scrollable configuration: default options (box 100 by 100), content
300 by 300, scrolled to x = -50. -/
def wideContentState : ScrollboxState :=
  { contentWidth := 300, contentHeight := 300, contentPos := ⟨-50, 0⟩ }

/-- Content (50 by 50) smaller than the box (100 by 100), with the content
position at x = -50, outside the valid range for that content size. -/
def smallContentState : ScrollboxState :=
  { contentWidth := 50, contentHeight := 50, contentPos := ⟨-50, 0⟩ }

/-- Overflowing content (200 by 200) in a box of 100 by 100 with
`overflow = "hidden"`. -/
def hiddenOverflowState : ScrollboxState :=
  { options := { overflow := "hidden" }, contentWidth := 200,
    contentHeight := 200 }

/-- An active drag gesture recorded at the local origin, content 300 by 300
at position (0, 0) in the default 100 by 100 box. -/
def dragAtOriginState : ScrollboxState :=
  { contentWidth := 300, contentHeight := 300,
    pointerDown := some ⟨"drag", "", ⟨0, 0⟩⟩ }

/-- An active drag gesture recorded at local x = 10 over the scrollable
configuration `wideContentState`. -/
def dragAtTenState : ScrollboxState :=
  { wideContentState with pointerDown := some ⟨"drag", "", ⟨10, 0⟩⟩ }

/-! ### Helper lemmas -/

/-- Clamping into `[lo, 0]`: when `0 ≤ lo` the result is `0`; when `lo ≤ 0`
the result lies in `[lo, 0]`. -/
lemma clamp_zero_range (x lo : ℚ) :
    (0 ≤ lo → clamp x lo 0 = 0) ∧
    (lo ≤ 0 → lo ≤ clamp x lo 0 ∧ clamp x lo 0 ≤ 0) := by
  unfold clamp
  constructor
  · intro h
    exact min_eq_right (le_trans h (le_max_right x lo))
  · intro h
    exact ⟨le_min (le_max_right x lo) h, min_le_right _ _⟩

/-- `clamp` is idempotent, including in the degenerate case `lo > hi`. -/
lemma clamp_idem (x lo hi : ℚ) :
    clamp (clamp x lo hi) lo hi = clamp x lo hi := by
  unfold clamp
  rcases le_total lo hi with h | h
  · rcases le_total x lo with h1 | h1
    · rw [max_eq_right h1, min_eq_left h, max_self, min_eq_left h]
    · rcases le_total x hi with h2 | h2
      · rw [max_eq_left h1, min_eq_left h2, max_eq_left h1, min_eq_left h2]
      · rw [max_eq_left h1, min_eq_right h2, max_eq_left h, min_self]
  · have h1 : min (max x lo) hi = hi :=
      min_eq_right (le_trans h (le_max_right x lo))
    rw [h1, max_eq_right h, min_eq_right h]

/-- `scrollTo` writes the clamped position and otherwise leaves the options,
content sizes and pointer state unchanged. -/
lemma scrollTo_fields (s : ScrollboxState) (p : Point) (r : String) :
    (scrollTo s p r).1.contentPos =
      ⟨clamp p.x (s.options.boxWidth - s.contentWidth) 0,
       clamp p.y (s.options.boxHeight - s.contentHeight) 0⟩ ∧
    (scrollTo s p r).1.options = s.options ∧
    (scrollTo s p r).1.contentWidth = s.contentWidth ∧
    (scrollTo s p r).1.contentHeight = s.contentHeight ∧
    (scrollTo s p r).1.pointerDown = s.pointerDown ∧
    (scrollTo s p r).1.emitted = s.emitted ++ [ScrollEvent.moved r] := by
  simp [scrollTo, updateScrollbars]

/-- After any single `scrollBy` or `scrollTo`, both axes satisfy the
clamping invariant. -/
lemma applyOp_clamped (s : ScrollboxState) (op : ScrollOp) :
    posInScrollRange (applyOp s op).contentPos.x
      (applyOp s op).options.boxWidth (applyOp s op).contentWidth ∧
    posInScrollRange (applyOp s op).contentPos.y
      (applyOp s op).options.boxHeight (applyOp s op).contentHeight := by
  have key : ∀ (t : ScrollboxState) (p : Point) (r : String),
      posInScrollRange (scrollTo t p r).1.contentPos.x
        (scrollTo t p r).1.options.boxWidth (scrollTo t p r).1.contentWidth ∧
      posInScrollRange (scrollTo t p r).1.contentPos.y
        (scrollTo t p r).1.options.boxHeight
        (scrollTo t p r).1.contentHeight := by
    intro t p r
    obtain ⟨hpos, hopt, hw, hh, -, -⟩ := scrollTo_fields t p r
    rw [hpos, hopt, hw, hh]
    constructor
    · constructor
      · intro hfit
        exact (clamp_zero_range p.x (t.options.boxWidth - t.contentWidth)).1
          (by linarith)
      · intro hover
        exact (clamp_zero_range p.x (t.options.boxWidth - t.contentWidth)).2
          (by linarith)
    · constructor
      · intro hfit
        exact (clamp_zero_range p.y (t.options.boxHeight - t.contentHeight)).1
          (by linarith)
      · intro hover
        exact (clamp_zero_range p.y (t.options.boxHeight - t.contentHeight)).2
          (by linarith)
  cases op with
  | sBy a r => exact key s (addPoints s.contentPos a) r
  | sTo p r => exact key s p r

/-! ### Claims -/

/-- Claim C1: for every Scrollbox state and every sequence of
`scrollBy`/`scrollTo` calls with arbitrary requested deltas or positions,
after each call the content position along each axis lies within
`[boxSize - contentSize, 0]`; in particular, when `contentSize ≤ boxSize`
along an axis, the only resulting position on that axis is `0`.  (The state
after the `k`-th call of a sequence is `applyOp` of the state reached by the
preceding calls `pre`.) -/
theorem scroll_sequences_stay_clamped (s : ScrollboxState)
    (pre : List ScrollOp) (op : ScrollOp) :
    posInScrollRange (applyOp (runOps s pre) op).contentPos.x
      (applyOp (runOps s pre) op).options.boxWidth
      (applyOp (runOps s pre) op).contentWidth ∧
    posInScrollRange (applyOp (runOps s pre) op).contentPos.y
      (applyOp (runOps s pre) op).options.boxHeight
      (applyOp (runOps s pre) op).contentHeight :=
  applyOp_clamped (runOps s pre) op

/-- Claim C10: `scrollTo` mutates its argument: the caller's point after the
call (second component) holds the clamped coordinates, equals the final
content position, and is in general different from the requested position. -/
theorem scrollTo_mutates_argument (s : ScrollboxState) (p : Point)
    (r : String) :
    (scrollTo s p r).2 =
      ⟨clamp p.x (s.options.boxWidth - s.contentWidth) 0,
       clamp p.y (s.options.boxHeight - s.contentHeight) 0⟩ ∧
    (scrollTo s p r).2 = (scrollTo s p r).1.contentPos := by
  simp [scrollTo, updateScrollbars]


/-- Claim C5 counterexample: with default options (box 100 wide), content 50
wide and the content at x = -50, `refresh()` leaves `currentScroll` at -50
even though the content fits the box — `refresh` never touches the content
position, contradicting "currentScroll == 0 immediately after refresh()
regardless of the position beforehand". -/
theorem refresh_does_not_reclamp :
    (let s : ScrollboxState := smallContentState;
     s.contentWidth ≤ s.options.boxWidth ∧
     (refresh s).contentPos.x = -50 ∧ ¬ (refresh s).contentPos.x = 0) := by
  refine ⟨by norm_num [smallContentState], rfl, by decide⟩

/-- Claim C5, amended: `refresh()` recomputes the scrollbar geometry from
the current content size and position and then emits a `refreshed`
notification, but it does not re-clamp (or otherwise modify) the content
position, which is left exactly as it was. -/
theorem refresh_recomputes_and_emits (s : ScrollboxState) :
    (refresh s).contentPos = s.contentPos ∧
    (refresh s).emitted = s.emitted ++ [ScrollEvent.refreshed] ∧
    (refresh s).scrollbarBackgroundWidth = s.options.boxWidth ∧
    (refresh s).scrollbarHandleWidth =
      s.options.boxWidth * (s.options.boxWidth / s.contentWidth) ∧
    (refresh s).scrollbarHandleX =
      -s.contentPos.x * (s.options.boxWidth / s.contentWidth) := by
  simp [refresh, updateScrollbars]

/-- Claim C6: while a gesture is active (`pointerDown` non-null), a new
pointer-down on the scrollbar handle or on the content leaves the whole
state — gesture record, recorded last point and content position included —
unchanged. -/
theorem pointer_down_exclusive (s : ScrollboxState) (pd : PointerRecord)
    (lp1 lp2 : Point) (h : s.pointerDown = some pd) :
    scrollbarDown s lp1 = s ∧ dragDown s lp2 = s := by
  unfold scrollbarDown dragDown
  rw [h]
  exact ⟨rfl, rfl⟩

/-- Witness for claim C6 at a concrete state: an active drag gesture with
recorded point (0, 0); pointer-downs at (1, 2) and (3, 4) change nothing. -/
theorem pointer_down_exclusive_witness :
    scrollbarDown
        { wideContentState with pointerDown := some ⟨"drag", "", ⟨0, 0⟩⟩ }
        ⟨1, 2⟩ =
      { wideContentState with pointerDown := some ⟨"drag", "", ⟨0, 0⟩⟩ } ∧
    dragDown
        { wideContentState with pointerDown := some ⟨"drag", "", ⟨0, 0⟩⟩ }
        ⟨3, 4⟩ =
      { wideContentState with pointerDown := some ⟨"drag", "", ⟨0, 0⟩⟩ } :=
  pointer_down_exclusive _ ⟨"drag", "", ⟨0, 0⟩⟩ ⟨1, 2⟩ ⟨3, 4⟩ rfl

/-- Claim C8: `scrollTo` is idempotent for the same raw input and hides no
emission: a second call with the same requested point `p` (or with the
mutated point the first call wrote back) lands on the same final content
position, and each of the two calls appends its own `moved` event carrying
the reason (`"user"` when the TypeScript default is used). -/
theorem scrollTo_idempotent_emits (s : ScrollboxState) (p : Point)
    (r : String) :
    (scrollTo (scrollTo s p r).1 p r).1.contentPos =
      (scrollTo s p r).1.contentPos ∧
    (scrollTo (scrollTo s p r).1 (scrollTo s p r).2 r).1.contentPos =
      (scrollTo s p r).1.contentPos ∧
    (scrollTo s p r).1.emitted = s.emitted ++ [ScrollEvent.moved r] ∧
    (scrollTo (scrollTo s p r).1 p r).1.emitted =
      s.emitted ++ [ScrollEvent.moved r, ScrollEvent.moved r] := by
  refine ⟨?_, ?_, ?_, ?_⟩ <;>
    simp [scrollTo, updateScrollbars, clamp_idem]

/-- Claim C9: a pointer-move or pointer-up dispatched while the gesture
record is non-null but tagged neither "scrollbar" nor "drag" raises the
error "no such type" immediately; with a null record both dispatchers are
silent no-ops. -/
theorem dispatch_unknown_tag_errors (s : ScrollboxState) (lp : Point) :
    (s.pointerDown = none →
      onMove s lp = Except.ok s ∧ onUp s = Except.ok s) ∧
    (∀ pd : PointerRecord, s.pointerDown = some pd →
      pd.type ≠ "scrollbar" → pd.type ≠ "drag" →
      onMove s lp = Except.error "no such type" ∧
      onUp s = Except.error "no such type") := by
  constructor
  · intro h
    unfold onMove onUp
    rw [h]
    exact ⟨rfl, rfl⟩
  · intro pd h h1 h2
    unfold onMove onUp
    rw [h]
    simp [h1, h2]

/-- Witness for claim C9: with a record tagged "bogus" both dispatchers
raise, and with a null record both are no-ops, at concrete states. -/
theorem dispatch_unknown_tag_errors_witness :
    (onMove
        { wideContentState with pointerDown := some ⟨"bogus", "", ⟨0, 0⟩⟩ }
        ⟨1, 1⟩ = Except.error "no such type" ∧
      onUp { wideContentState with
              pointerDown := some ⟨"bogus", "", ⟨0, 0⟩⟩ } =
        Except.error "no such type") ∧
    (onMove wideContentState ⟨1, 1⟩ = Except.ok wideContentState ∧
      onUp wideContentState = Except.ok wideContentState) :=
  ⟨(dispatch_unknown_tag_errors
      { wideContentState with pointerDown := some ⟨"bogus", "", ⟨0, 0⟩⟩ }
      ⟨1, 1⟩).2 ⟨"bogus", "", ⟨0, 0⟩⟩ rfl (by decide) (by decide),
   (dispatch_unknown_tag_errors wideContentState ⟨1, 1⟩).1 rfl⟩


/-- Claim C2 (code bug, evaluated at the failing input): with box width 100
and content width 50, the recomputation triggered by `refresh` sets the
scrollbar handle width to `100 * (100 / 50) = 200`, not the claimed
`boxSize * clamp(boxSize/contentSize, 0, 1) = 100` — the source never clamps
`_ratio`, and at `contentSize == 0` the same unclamped division yields
`Infinity`/`NaN` in JavaScript instead of the claimed ratio 1. -/
theorem scrollbar_ratio_unclamped_eval :
    (refresh smallContentState).scrollbarHandleWidth = 200 ∧
    ¬ (refresh smallContentState).scrollbarHandleWidth =
        smallContentState.options.boxWidth *
          clamp (smallContentState.options.boxWidth /
            smallContentState.contentWidth) 0 1 := by
  constructor
  · norm_num [refresh, updateScrollbars, smallContentState]
  · norm_num [refresh, updateScrollbars, smallContentState, clamp,
      min_def, max_def]

/-- Claim C3 (code bug): no scrollbar update ever writes the indicator's
visibility — `refresh` and `scrollTo` leave `scrollbarVisible` exactly as it
was, for every state — so with `overflow = "hidden"` and content (200)
overflowing the box (100) the indicator still has its PIXI-default
visibility `true` after `refresh`, contradicting "with overflow = hidden the
indicator is never visible". -/
theorem scrollbar_visibility_never_updated :
    (∀ s : ScrollboxState,
      (refresh s).scrollbarVisible = s.scrollbarVisible ∧
      ∀ (p : Point) (r : String),
        (scrollTo s p r).1.scrollbarVisible = s.scrollbarVisible) ∧
    hiddenOverflowState.options.overflow = "hidden" ∧
    hiddenOverflowState.options.boxWidth <
      hiddenOverflowState.contentWidth ∧
    (refresh hiddenOverflowState).scrollbarVisible = true := by
  refine ⟨fun s => ⟨rfl, fun p r => rfl⟩, rfl, ?_, rfl⟩
  norm_num [hiddenOverflowState]

/-- Claim C4 (code bug, evaluated at the failing input): a wheel event with
`deltaY = 50` arriving while the cursor hit-tests inside the visible
viewport leaves the state completely unchanged yet still suppresses the
browser default (`preventDefault` is called) — the `scrollBy` call in the
source is commented out.  Had the handler scrolled by `-deltaY` as claimed,
the content at x = -50 (box 100, content 300) would have moved to x = -100,
as the `scrollBy` conjunct shows.  An event outside the viewport bounds is a
no-op that does not suppress the default, as the claim says. -/
theorem onWheel_does_not_scroll_eval :
    (onWheel wideContentState true true 50).1 = wideContentState ∧
    (onWheel wideContentState true true 50).2 = true ∧
    wideContentState.contentPos.x = -50 ∧
    (scrollBy wideContentState ⟨-50, 0⟩ "user").1.contentPos.x = -100 ∧
    onWheel wideContentState true false 50 = (wideContentState, false) := by
  refine ⟨rfl, rfl, rfl, ?_, rfl⟩
  norm_num [scrollBy, scrollTo, updateScrollbars, addPoints,
    wideContentState, clamp, min_def, max_def]

/-- Claim C7 counterexample: with `direction = "horizontal"` (the active
axis is x), an active drag recorded at (0, 0) and a move to (0, -10) —
beyond the threshold 5, but purely vertical — scrolls the content to
y = -10: the source applies the full two-dimensional delta (the
axis-restriction lines are commented out), refuting "scrolls ... along the
active axis only". -/
theorem dragMove_scrolls_inactive_axis :
    dragAtOriginState.options.direction = "horizontal" ∧
    dragAtOriginState.contentPos.y = 0 ∧
    (dragMove dragAtOriginState ⟨0, -10⟩).contentPos.y = -10 := by
  refine ⟨rfl, rfl, ?_⟩
  have hfar : ¬ distWithin ⟨0, -10⟩ ⟨0, 0⟩ (5 : ℚ) := by
    norm_num [distWithin, dist2]
  simp only [dragMove, dragAtOriginState]
  rw [if_neg hfar]
  norm_num [scrollBy, scrollTo, updateScrollbars, addPoints, subPoints,
    clamp, min_def, max_def]

/-- Claim C7, amended: during an active drag, a pointer-move within
`dragThreshold` of the recorded point changes nothing (no scroll, recorded
point kept); a move beyond the threshold scrolls the content by the full
delta from the recorded point on both axes (each coordinate clamped), not
only the active axis, and records the new point. -/
theorem dragMove_threshold_behavior (s : ScrollboxState)
    (pd : PointerRecord) (lp : Point) (h : s.pointerDown = some pd) :
    (distWithin lp pd.last s.options.dragThreshold → dragMove s lp = s) ∧
    (¬ distWithin lp pd.last s.options.dragThreshold →
      (dragMove s lp).pointerDown = some { pd with last := lp } ∧
      (dragMove s lp).contentPos =
        ⟨clamp (s.contentPos.x + (lp.x - pd.last.x))
           (s.options.boxWidth - s.contentWidth) 0,
         clamp (s.contentPos.y + (lp.y - pd.last.y))
           (s.options.boxHeight - s.contentHeight) 0⟩) := by
  unfold dragMove
  rw [h]
  constructor
  · intro h1
    simp [h1]
  · intro h1
    simp [h1, scrollBy, scrollTo, updateScrollbars, addPoints, subPoints]

/-- Witness for claim C7, the concrete scenario of the claim: threshold 5,
drag recorded at local x = 10 (content at x = -50, box 100, content 300); a
move to x = 12 changes nothing, and a move to x = 20 scrolls the content by
the delta 10 to x = -40 and records (20, 0). -/
theorem dragMove_threshold_behavior_witness :
    dragMove dragAtTenState ⟨12, 0⟩ = dragAtTenState ∧
    (dragMove dragAtTenState ⟨20, 0⟩).contentPos = ⟨-40, 0⟩ ∧
    (dragMove dragAtTenState ⟨20, 0⟩).pointerDown =
      some ⟨"drag", "", ⟨20, 0⟩⟩ := by
  have hnear := dragMove_threshold_behavior dragAtTenState
    ⟨"drag", "", ⟨10, 0⟩⟩ ⟨12, 0⟩ rfl
  have hfar := dragMove_threshold_behavior dragAtTenState
    ⟨"drag", "", ⟨10, 0⟩⟩ ⟨20, 0⟩ rfl
  have hf : ¬ distWithin ⟨20, 0⟩ (⟨10, 0⟩ : Point)
      dragAtTenState.options.dragThreshold := by
    norm_num [distWithin, dist2, dragAtTenState, wideContentState]
  refine ⟨?_, ?_, ?_⟩
  · exact hnear.1 (by norm_num [distWithin, dist2, dragAtTenState,
      wideContentState])
  · rw [(hfar.2 hf).2]
    norm_num [dragAtTenState, wideContentState, clamp, min_def, max_def]
  · rw [(hfar.2 hf).1]

end BooyahScroll
